import Mathlib

/-!
Verification of the Avalon game orchestration.

Shallow embedding of the core game logic of the repository
(src/game_engine.py, src/game_loop.py, src/agent_interface.py).

Python dictionaries keyed by player name are embedded as association
lists of pairs, preserving insertion order; counting comprehensions
such as sum(1 for v in votes.values() if v == "approve") become
List.filter followed by List.length.  Decision providers (LLM agents)
are embedded as functions from a player name to the parsed decision
string, and a provider call that can fail is an Option String
(none embeds a raised exception inside the API call).
-/

namespace Avalon

/-- Embeds the quest_requirements table of AvalonGame.__init__
(src/game_engine.py): required team size per quest number for five
players.  Lookup outside 1..5 raises KeyError in the source, embedded
as none. -/
def quest_requirements : Nat → Option Nat
  | 1 => some 2
  | 2 => some 3
  | 3 => some 2
  | 4 => some 3
  | 5 => some 3
  | _ => none

/-- Embeds AvalonGame._assign_roles (src/game_engine.py): the shuffled
player list receives, in order, Merlin, two Loyal Servants, the
Assassin and the Minion.  The source indexes positions 0..4 of the
shuffled list, so fewer than five players raises IndexError (embedded
as none) while players beyond the fifth are silently left without a
role. -/
def assign_roles (shuffled : List String) : Option (List (String × String)) :=
  match shuffled with
  | p0 :: p1 :: p2 :: p3 :: p4 :: _ =>
    some [(p0, "Merlin"), (p1, "Loyal Servant"), (p2, "Loyal Servant"),
          (p3, "Assassin"), (p4, "Minion")]
  | _ => none

/-- Embeds the evil_players comprehension of
AvalonGame.get_initial_knowledge (src/game_engine.py): players whose
role is Assassin or Minion, in role-table insertion order. -/
def evil_players (roles : List (String × String)) : List String :=
  (roles.filter (fun pr => pr.2 == "Assassin" || pr.2 == "Minion")).map Prod.fst

/-- Embeds the merlin lookup of AvalonGame.get_initial_knowledge:
first player whose role is Merlin; the source indexes [0] into the
comprehension, raising IndexError when no Merlin exists (none here). -/
def merlin_player (roles : List (String × String)) : Option String :=
  ((roles.filter (fun pr => pr.2 == "Merlin")).map Prod.fst).head?

/-- Embeds AvalonGame.get_initial_knowledge (src/game_engine.py).
The knowledge dict starts empty for every player, each evil player is
assigned the other evil players, and Merlin is then assigned the full
evil list (the later Merlin assignment overwrites, hence the first
branch).  The dict keyed by the player list is embedded as a map over
that list. -/
def get_initial_knowledge (players : List String) (roles : List (String × String)) :
    Option (List (String × List String)) :=
  match merlin_player roles with
  | none => none
  | some merlin =>
    some (players.map (fun p =>
      (p, if p = merlin then evil_players roles
          else if (evil_players roles).contains p then
            (evil_players roles).filter (fun q => q != p)
          else [])))

/-- Embeds the quest outcome dict added to round_data in
run_quest_round (src/game_loop.py). -/
structure QuestOutcome where
  success_cards : Nat
  fail_cards : Nat
  result : String
deriving DecidableEq, Repr

/-- Embeds the round_data dict built in run_quest_round
(src/game_loop.py): one record per proposal attempt. -/
structure RoundRecord where
  round_number : Nat
  quest_number : Nat
  team_size_required : Nat
  leader : String
  proposed_team : List String
  votes : List (String × String)
  vote_result : String
  consecutive_rejections : Nat
  quest_outcome : Option QuestOutcome
deriving DecidableEq, Repr

/-- Embeds the mutable state of AvalonGame (src/game_engine.py) that
run_quest_round reads and writes: players, seating order, leader
index, role table, current quest, quest score, the rejection counter
and the accumulated round records. -/
structure GameState where
  players : List String
  seating_order : List String
  leader_index : Nat
  roles : List (String × String)
  current_quest : Nat
  good_score : Nat
  evil_score : Nat
  consecutive_rejections : Nat
  rounds : List RoundRecord
deriving DecidableEq, Repr

/-- Embeds AvalonGame.current_leader: the seating-order entry at the
leader index. -/
def current_leader (g : GameState) : String :=
  g.seating_order.getD g.leader_index ""

/-- Embeds AvalonGame.rotate_leader (src/game_engine.py): advance the
leader index by one modulo the seating-order length. -/
def rotate_leader (g : GameState) : GameState :=
  { g with leader_index := (g.leader_index + 1) % g.seating_order.length }

/-- Embeds the roles dict lookup game.roles[player] used by
get_player_role_info; a missing player raises KeyError in the source
and is embedded by the empty string, which is not an evil role. -/
def lookupRole (roles : List (String × String)) (p : String) : String :=
  match roles.find? (fun pr => pr.1 == p) with
  | some pr => pr.2
  | none => ""

/-- Embeds collect_votes (src/game_loop.py): one parsed vote per
player in the players list, as an association list in collection
order.  voteOf is the composition of the decision provider and
parse_vote. -/
def collect_votes (players : List String) (voteOf : String → String) :
    List (String × String) :=
  players.map (fun p => (p, voteOf p))

/-- Embeds approve_count in run_quest_round (src/game_loop.py). -/
def approve_count (votes : List (String × String)) : Nat :=
  (votes.filter (fun pv => pv.2 == "approve")).length

/-- Embeds reject_count in run_quest_round (src/game_loop.py). -/
def reject_count (votes : List (String × String)) : Nat :=
  (votes.filter (fun pv => pv.2 == "reject")).length

/-- Embeds the vote_result expression in run_quest_round
(src/game_loop.py line 231): approved exactly when the approve count
strictly exceeds the reject count. -/
def vote_result (votes : List (String × String)) : String :=
  if reject_count votes < approve_count votes then "approved" else "rejected"

/-- Embeds collect_quest_cards (src/game_loop.py): each team member
plays its parsed card, except that a player whose role is neither
Assassin nor Minion is coerced to success.  cardOf is the composition
of the decision provider and parse_quest_card. -/
def collect_quest_cards (roles : List (String × String)) (cardOf : String → String)
    (team : List String) : List (String × String) :=
  team.map (fun p =>
    (p, if lookupRole roles p == "Assassin" || lookupRole roles p == "Minion"
        then cardOf p else "success"))

/-- Embeds success_count in run_quest_round (src/game_loop.py). -/
def success_count (cards : List (String × String)) : Nat :=
  (cards.filter (fun pc => pc.2 == "success")).length

/-- Embeds fail_count in run_quest_round (src/game_loop.py). -/
def fail_count (cards : List (String × String)) : Nat :=
  (cards.filter (fun pc => pc.2 == "fail")).length

/-- Embeds the quest_result expression in run_quest_round
(src/game_loop.py line 275): success exactly when no fail card was
played. -/
def quest_result (cards : List (String × String)) : String :=
  if fail_count cards = 0 then "success" else "fail"

/-- Embeds the round_data dict as built in run_quest_round before the
branch on the vote result (src/game_loop.py lines 236-245): the round
number is one past the current history length, the rejection counter
field anticipates the increment, and quest_outcome is not yet set
(none). -/
def proposal_record (g : GameState) (required : Nat)
    (votes : List (String × String)) : RoundRecord :=
  { round_number := g.rounds.length + 1
    quest_number := g.current_quest
    team_size_required := required
    leader := current_leader g
    proposed_team := g.seating_order.take required
    votes := votes
    vote_result := vote_result votes
    consecutive_rejections :=
      if vote_result votes = "rejected" then g.consecutive_rejections + 1 else 0
    quest_outcome := none }

/-- Embeds run_quest_round (src/game_loop.py): discussion is opaque to
the state machine; the leader proposes the first required-size seats;
votes are collected and tallied; on rejection the counter is
incremented and, below the terminal threshold, the leader rotates and
the record is appended with quest_outcome none, while at the threshold
the function returns evil_wins immediately; on approval the counter
resets, quest cards are collected with the good-role coercion, the
score is updated, the completed record is appended, the quest number
advances, the leader rotates, and the win conditions are checked. -/
def run_quest_round (g : GameState) (voteOf : String → String)
    (cardOf : String → String) : Option (String × GameState) :=
  match quest_requirements g.current_quest with
  | none => none
  | some required =>
    let votes := collect_votes g.players voteOf
    let base := proposal_record g required votes
    if vote_result votes = "rejected" then
      let g1 := { g with consecutive_rejections := g.consecutive_rejections + 1 }
      if 5 ≤ g1.consecutive_rejections then
        some ("evil_wins", g1)
      else
        let g2 := rotate_leader g1
        some ("rejected", { g2 with rounds := g2.rounds ++ [base] })
    else
      let g1 := { g with consecutive_rejections := 0 }
      let quest_cards := collect_quest_cards g.roles cardOf (g.seating_order.take required)
      let qres := quest_result quest_cards
      let g2 := if qres = "success"
                then { g1 with good_score := g1.good_score + 1 }
                else { g1 with evil_score := g1.evil_score + 1 }
      let outcome : QuestOutcome :=
        { success_cards := success_count quest_cards
          fail_cards := fail_count quest_cards
          result := qres }
      let record := { base with quest_outcome := some outcome }
      let g3 := { g2 with rounds := g2.rounds ++ [record] }
      let g4 := rotate_leader { g3 with current_quest := g3.current_quest + 1 }
      if 3 ≤ g4.good_score then some ("good_wins_quests", g4)
      else if 3 ≤ g4.evil_score then some ("evil_wins", g4)
      else some ("continue", g4)

/-- Embeds the fixed fallback string returned by LLMAgent.get_response
when the API call raises (src/game_loop.py lines 48-51). -/
def fallback_response : String := "I approve of this proposal. <VOTE>approve</VOTE>"

/-- Embeds LLMAgent.get_response (src/game_loop.py): a successful API
call returns its text, a failed call (none) is caught and replaced by
the fallback string, so no exception reaches the game loop. -/
def get_response (api : Option String) : String :=
  match api with
  | some r => r
  | none => fallback_response

/-- Character-list matcher: the pattern matches at the head of the
text.  Used to embed the regex searches of AgentInterface. -/
def matchesAt : List Char → List Char → Bool
  | [], _ => true
  | _ :: _, [] => false
  | p :: ps, c :: cs => p == c && matchesAt ps cs

/-- Scanner embedding the regex search of AgentInterface.parse_vote
(src/agent_interface.py): leftmost occurrence of an approve or reject
vote tag, approve tried first at each position as in the regex
alternation; reject when no tag occurs. -/
def findVote : List Char → String
  | [] => "reject"
  | c :: cs =>
    if matchesAt "<vote>approve</vote>".data (c :: cs) then "approve"
    else if matchesAt "<vote>reject</vote>".data (c :: cs) then "reject"
    else findVote cs

/-- Embeds AgentInterface.parse_vote (src/agent_interface.py): the
case-insensitive search is embedded by lowercasing the response before
scanning; reject when no vote tag parses. -/
def parse_vote (response : String) : String :=
  findVote (response.data.map Char.toLower)

/-- Embeds the endgame handling at the bottom of main
(src/game_loop.py lines 354-364): the banner lines printed for the
terminal loop result.  The assassination phase is a TODO placeholder
in the source: no decision provider is consulted, no target is
collected, and the outcome depends only on the loop result. -/
def main_endgame (game_result : String) : List String :=
  if game_result = "good_wins_quests" then
    ["GOOD has won 3 quests!", "=== ASSASSINATION PHASE ===",
     "TODO: Implement assassination phase"]
  else if game_result = "evil_wins" then
    ["EVIL WINS!"]
  else []

/-- A concrete five-player game state at the start of a fresh game,
used by witnesses and counterexamples. -/
def testState : GameState :=
  { players := ["P1", "P2", "P3", "P4", "P5"]
    seating_order := ["P1", "P2", "P3", "P4", "P5"]
    leader_index := 0
    roles := [("P1", "Merlin"), ("P2", "Loyal Servant"), ("P3", "Loyal Servant"),
              ("P4", "Assassin"), ("P5", "Minion")]
    current_quest := 1
    good_score := 0
    evil_score := 0
    consecutive_rejections := 0
    rounds := [] }

/-- testState after four consecutive rejections have accumulated. -/
def crFourState : GameState := { testState with consecutive_rejections := 4 }

/-- Decision function under which every player votes reject. -/
def allReject : String → String := fun _ => "reject"

/-- Decision function under which every team member plays success. -/
def allSuccess : String → String := fun _ => "success"

/-- testState after three consecutive rejections have accumulated. -/
def crThreeState : GameState := { testState with consecutive_rejections := 3 }

/-- Invariant of the round history: each appended record carries a
round number equal to its one-based position in the history. -/
def rounds_well_numbered (rs : List RoundRecord) : Prop :=
  ∀ i r, rs[i]? = some r → r.round_number = i + 1

/-- The state produced from testState by one round whose proposal is
rejected by every player. -/
def rejectedOnceState : GameState :=
  { testState with
      consecutive_rejections := 1
      leader_index := 1
      rounds := [proposal_record testState 2 (collect_votes testState.players allReject)] }

/-- Decision function for a non-unanimous rejected ballot: the first
two players approve, the remaining three reject. -/
def twoApprove : String → String :=
  fun p => if p = "P1" ∨ p = "P2" then "approve" else "reject"

/-- The state produced from testState by one round whose proposal is
rejected 2-approve to 3-reject. -/
def rejectedTwoApproveState : GameState :=
  { testState with
      consecutive_rejections := 1
      leader_index := 1
      rounds := [proposal_record testState 2 (collect_votes testState.players twoApprove)] }

/-- Counting helper: when every ballot is approve or reject, the two
counts partition the ballot list. -/
lemma approve_add_reject (votes : List (String × String))
    (hall : ∀ pv ∈ votes, pv.2 = "approve" ∨ pv.2 = "reject") :
    approve_count votes + reject_count votes = votes.length := by
  induction votes with
  | nil => rfl
  | cons pv rest ih =>
    have h := hall pv (by simp)
    have hrest : ∀ q ∈ rest, q.2 = "approve" ∨ q.2 = "reject" :=
      fun q hq => hall q (by simp [hq])
    have ih2 := ih hrest
    rcases h with h | h <;>
      simp only [approve_count, reject_count, List.filter_cons, h] at * <;>
      simp <;> omega

/-- C1: for a full five-player ballot with every vote in approve or
reject, the vote result is approved exactly when the approve count
strictly exceeds the reject count, equivalently when at least three
players approve; a 3-2 ballot is approved and a 2-3 ballot is
rejected. -/
theorem c1_vote_strict_majority (votes : List (String × String))
    (h5 : votes.length = 5)
    (hall : ∀ pv ∈ votes, pv.2 = "approve" ∨ pv.2 = "reject") :
    (vote_result votes = "approved" ↔ reject_count votes < approve_count votes)
    ∧ (vote_result votes = "approved" ↔ 3 ≤ approve_count votes)
    ∧ vote_result [("P1", "approve"), ("P2", "approve"), ("P3", "approve"),
        ("P4", "reject"), ("P5", "reject")] = "approved"
    ∧ vote_result [("P1", "approve"), ("P2", "approve"), ("P3", "reject"),
        ("P4", "reject"), ("P5", "reject")] = "rejected" := by
  have hsum := approve_add_reject votes hall
  rw [h5] at hsum
  refine ⟨?_, ?_, by decide, by decide⟩
  · unfold vote_result
    split <;> rename_i h
    · simpa using h
    · constructor
      · intro habs; exact absurd habs (by decide)
      · intro hlt; exact absurd hlt h
  · unfold vote_result
    split <;> rename_i h
    · constructor
      · intro _; omega
      · intro _; rfl
    · constructor
      · intro habs; exact absurd habs (by decide)
      · intro h3; exact absurd (by omega : reject_count votes < approve_count votes) h


/-- C1 witness: the majority rule applied to a concrete 4-1 ballot. -/
theorem c1_vote_strict_majority_witness :
    vote_result [("P1", "approve"), ("P2", "approve"), ("P3", "approve"),
      ("P4", "reject"), ("P5", "approve")] = "approved" ↔
    3 ≤ approve_count [("P1", "approve"), ("P2", "approve"), ("P3", "approve"),
      ("P4", "reject"), ("P5", "approve")] :=
  (c1_vote_strict_majority
    [("P1", "approve"), ("P2", "approve"), ("P3", "approve"),
     ("P4", "reject"), ("P5", "approve")] (by decide) (by decide)).2.1

/-- C2: a quest fails exactly when its card list contains at least one
fail card, with the success and fail counters counting the cards
played; a team of three playing success, success, fail yields fail
with fail count one, and a team of two playing success, success yields
success with fail count zero. -/
theorem c2_quest_any_fail (cards : List (String × String)) :
    (quest_result cards = "fail" ↔ 0 < fail_count cards)
    ∧ (quest_result cards = "fail" ↔ ∃ pc ∈ cards, pc.2 = "fail")
    ∧ quest_result [("A", "success"), ("B", "success"), ("C", "fail")] = "fail"
    ∧ fail_count [("A", "success"), ("B", "success"), ("C", "fail")] = 1
    ∧ success_count [("A", "success"), ("B", "success"), ("C", "fail")] = 2
    ∧ quest_result [("A", "success"), ("B", "success")] = "success"
    ∧ fail_count [("A", "success"), ("B", "success")] = 0
    ∧ success_count [("A", "success"), ("B", "success")] = 2 := by
  have hpos : quest_result cards = "fail" ↔ 0 < fail_count cards := by
    unfold quest_result
    split <;> rename_i h
    · constructor
      · intro habs; exact absurd habs (by decide)
      · intro hlt; omega
    · constructor
      · intro _; omega
      · intro _; rfl
  refine ⟨hpos, ?_, by decide, by decide, by decide, by decide, by decide, by decide⟩
  rw [hpos]
  unfold fail_count
  rw [List.length_pos]
  constructor
  · intro hne
    obtain ⟨pc, hpc⟩ := List.exists_mem_of_ne_nil _ hne
    have := List.of_mem_filter hpc
    exact ⟨pc, List.mem_of_mem_filter hpc, by simpa using this⟩
  · intro ⟨pc, hmem, hfail⟩
    intro hnil
    have : pc ∈ cards.filter (fun pc => pc.2 == "fail") :=
      List.mem_filter.mpr ⟨hmem, by simp [hfail]⟩
    rw [hnil] at this
    simp at this

/-- C3 counterexample: when the decision provider call fails, the
fallback response substituted by LLMAgent.get_response itself contains
an approve vote tag, so the recorded vote is approve, not the claimed
reject default. -/
theorem c3_failed_call_counterexample :
    parse_vote (get_response none) = "approve"
    ∧ parse_vote (get_response none) ≠ "reject" := by
  constructor
  · rfl
  · decide

/-- C3 amended: when the decision provider call fails the failure is
not propagated (the fixed fallback string is substituted and the round
proceeds), and the vote recorded for that player is approve, because
the fallback text embeds an approve vote tag; the reject default of
parse_vote applies only to a response with no parseable vote tag. -/
theorem c3_failed_call_default (r : String) :
    parse_vote (get_response none) = "approve"
    ∧ get_response none = fallback_response
    ∧ get_response (some r) = r
    ∧ parse_vote "I cannot make up my mind." = "reject" := by
  exact ⟨rfl, rfl, rfl, by decide⟩

/-- C3 witness for the amended theorem, instantiated at a concrete
successful response. -/
theorem c3_failed_call_default_witness :
    get_response (some "ok <VOTE>reject</VOTE>") = "ok <VOTE>reject</VOTE>" :=
  (c3_failed_call_default "ok <VOTE>reject</VOTE>").2.2.1

/-- C6: evaluating the embedded endgame handler of main at the
good-wins-by-quests loop result shows that the source only prints a
TODO placeholder banner: no assassination target is collected and no
comparison with Merlin decides the final outcome, contradicting the
claimed assassination step. -/
theorem c6_assassination_is_todo :
    main_endgame "good_wins_quests" =
      ["GOOD has won 3 quests!", "=== ASSASSINATION PHASE ===",
       "TODO: Implement assassination phase"]
    ∧ main_endgame "evil_wins" = ["EVIL WINS!"] := by
  constructor <;> rfl

/-- C7: in the tallied card list every team member whose role is
neither Assassin nor Minion contributes a success card regardless of
the raw decision, so a team with no evil member always produces a
successful quest with fail count zero. -/
theorem c7_good_cards_coerced (roles : List (String × String))
    (cardOf : String → String) (team : List String) :
    (∀ pc ∈ collect_quest_cards roles cardOf team,
        lookupRole roles pc.1 ≠ "Assassin" → lookupRole roles pc.1 ≠ "Minion" →
        pc.2 = "success")
    ∧ ((∀ p ∈ team, lookupRole roles p ≠ "Assassin" ∧ lookupRole roles p ≠ "Minion") →
        fail_count (collect_quest_cards roles cardOf team) = 0
        ∧ quest_result (collect_quest_cards roles cardOf team) = "success") := by
  constructor
  · intro pc hpc hna hnm
    simp only [collect_quest_cards, List.mem_map] at hpc
    obtain ⟨p, hp, hep⟩ := hpc
    subst hep
    simp only
    rw [if_neg]
    simp only [Bool.or_eq_true, beq_iff_eq]
    push_neg
    exact ⟨hna, hnm⟩
  · intro hgood
    have hzero : fail_count (collect_quest_cards roles cardOf team) = 0 := by
      induction team with
      | nil => rfl
      | cons p ps ih =>
        have hp := hgood p (by simp)
        have hps : ∀ q ∈ ps, lookupRole roles q ≠ "Assassin" ∧ lookupRole roles q ≠ "Minion" :=
          fun q hq => hgood q (by simp [hq])
        have hcond : (lookupRole roles p == "Assassin" || lookupRole roles p == "Minion") = false := by
          simp only [Bool.or_eq_false_iff, beq_eq_false_iff_ne]
          exact hp
        simp only [collect_quest_cards, List.map_cons, fail_count, List.filter_cons,
          hcond] at *
        simpa using ih hps
    refine ⟨hzero, ?_⟩
    unfold quest_result
    rw [hzero]
    rfl

/-- C7 witness: a two-member all-good team whose raw decisions are all
fail still tallies zero fail cards and a successful quest. -/
theorem c7_good_cards_coerced_witness :
    fail_count (collect_quest_cards testState.roles (fun _ => "fail") ["P1", "P2"]) = 0
    ∧ quest_result (collect_quest_cards testState.roles (fun _ => "fail") ["P1", "P2"])
        = "success" :=
  (c7_good_cards_coerced testState.roles (fun _ => "fail") ["P1", "P2"]).2 (by decide)

/-- C9 counterexample: a six-player input does not make role
assignment fail; the five role cards are assigned to the first five
players and the sixth is silently ignored, contrary to the claim that
any size other than five reports an error. -/
theorem c9_six_players_counterexample :
    assign_roles ["Q1", "Q2", "Q3", "Q4", "Q5", "Q6"] =
      some [("Q1", "Merlin"), ("Q2", "Loyal Servant"), ("Q3", "Loyal Servant"),
            ("Q4", "Assassin"), ("Q5", "Minion")]
    ∧ assign_roles ["Q1", "Q2", "Q3", "Q4", "Q5", "Q6"] ≠ none := by
  constructor
  · rfl
  · decide

/-- C9 amended: role assignment fails (IndexError in the source)
exactly when fewer than five players are supplied; whenever it
succeeds, it assigns the five role cards, one Merlin, two Loyal
Servants, one Assassin and one Minion, to exactly the first five
shuffled players, which for an input of exactly five players is a full
assignment. -/
theorem c9_assign_roles_size (shuffled : List String) :
    (assign_roles shuffled = none ↔ shuffled.length < 5)
    ∧ (∀ roles, assign_roles shuffled = some roles →
        roles.map Prod.fst = shuffled.take 5
        ∧ (roles.filter (fun pr => pr.2 == "Merlin")).length = 1
        ∧ (roles.filter (fun pr => pr.2 == "Loyal Servant")).length = 2
        ∧ (roles.filter (fun pr => pr.2 == "Assassin")).length = 1
        ∧ (roles.filter (fun pr => pr.2 == "Minion")).length = 1
        ∧ roles.length = 5) := by
  rcases shuffled with _ | ⟨p0, _ | ⟨p1, _ | ⟨p2, _ | ⟨p3, _ | ⟨p4, rest⟩⟩⟩⟩⟩
  · exact ⟨by simp [assign_roles], fun roles h => by simp [assign_roles] at h⟩
  · exact ⟨by simp [assign_roles], fun roles h => by simp [assign_roles] at h⟩
  · exact ⟨by simp [assign_roles], fun roles h => by simp [assign_roles] at h⟩
  · exact ⟨by simp [assign_roles], fun roles h => by simp [assign_roles] at h⟩
  · exact ⟨by simp [assign_roles], fun roles h => by simp [assign_roles] at h⟩
  · constructor
    · simp [assign_roles]
    · intro roles h
      simp only [assign_roles, Option.some.injEq] at h
      subst h
      refine ⟨by simp, ?_, ?_, ?_, ?_, rfl⟩ <;> simp [List.filter_cons]

/-- C9 witness: the amended theorem applied to an exact five-player
input yields the full role assignment with the required counts. -/
theorem c9_assign_roles_size_witness :
    (([("Q1", "Merlin"), ("Q2", "Loyal Servant"), ("Q3", "Loyal Servant"),
       ("Q4", "Assassin"), ("Q5", "Minion")] : List (String × String)).filter
       (fun pr => pr.2 == "Loyal Servant")).length = 2 :=
  ((c9_assign_roles_size ["Q1", "Q2", "Q3", "Q4", "Q5"]).2
    [("Q1", "Merlin"), ("Q2", "Loyal Servant"), ("Q3", "Loyal Servant"),
     ("Q4", "Assassin"), ("Q5", "Minion")] rfl).2.2.1

/-- C8: for any five distinct players in shuffled order, role
assignment gives the role table in order, and the computed initial
knowledge maps, for any iteration order of the player dict, the
Assassin to exactly the Minion, the Minion to exactly the Assassin,
Merlin to exactly the two evil players, and each Loyal Servant to the
empty set. -/
theorem c8_initial_knowledge (p0 p1 p2 p3 p4 : String)
    (hnd : ([p0, p1, p2, p3, p4] : List String).Nodup) :
    assign_roles [p0, p1, p2, p3, p4] =
      some [(p0, "Merlin"), (p1, "Loyal Servant"), (p2, "Loyal Servant"),
            (p3, "Assassin"), (p4, "Minion")]
    ∧ ∀ players : List String,
        get_initial_knowledge players
          [(p0, "Merlin"), (p1, "Loyal Servant"), (p2, "Loyal Servant"),
           (p3, "Assassin"), (p4, "Minion")] =
        some (players.map (fun p =>
          (p, if p = p0 then [p3, p4]
              else if p = p3 then [p4]
              else if p = p4 then [p3]
              else []))) := by
  simp only [List.nodup_cons, List.mem_cons, List.mem_singleton,
    List.not_mem_nil, or_false, not_or] at hnd
  obtain ⟨⟨h01, h02, h03, h04⟩, ⟨h12, h13, h14⟩, ⟨h23, h24⟩, h34, -⟩ := hnd
  refine ⟨rfl, ?_⟩
  intro players
  have hm : merlin_player
      [(p0, "Merlin"), (p1, "Loyal Servant"), (p2, "Loyal Servant"),
       (p3, "Assassin"), (p4, "Minion")] = some p0 := by
    simp [merlin_player, List.filter_cons]
  have he : evil_players
      [(p0, "Merlin"), (p1, "Loyal Servant"), (p2, "Loyal Servant"),
       (p3, "Assassin"), (p4, "Minion")] = [p3, p4] := by
    simp [evil_players, List.filter_cons]
  unfold get_initial_knowledge
  rw [hm, he]
  refine congrArg some (List.map_congr_left ?_)
  intro p _
  by_cases hp0 : p = p0
  · simp [hp0]
  · rw [if_neg hp0, if_neg hp0]
    by_cases hp3 : p = p3
    · subst hp3
      have hc : ([p, p4].contains p) = true := by simp
      rw [if_pos hc, if_pos rfl]
      have hne : (p4 != p) = true := by
        simp only [bne_iff_ne, ne_eq]
        exact fun hq => h34 hq.symm
      simp [List.filter_cons, hne]
    · rw [if_neg hp3]
      by_cases hp4 : p = p4
      · subst hp4
        have hc : ([p3, p].contains p) = true := by simp
        rw [if_pos hc, if_pos rfl]
        have hne : (p3 != p) = true := by
          simp only [bne_iff_ne, ne_eq]
          exact h34
        simp [List.filter_cons, hne]
      · rw [if_neg (by simp [hp3, hp4]), if_neg hp4]

/-- C8 witness: the theorem applied to five concrete players with a
player iteration order different from the shuffled order. -/
theorem c8_initial_knowledge_witness :
    get_initial_knowledge ["P3", "P1", "P5", "P2", "P4"]
      [("P1", "Merlin"), ("P2", "Loyal Servant"), ("P3", "Loyal Servant"),
       ("P4", "Assassin"), ("P5", "Minion")] =
    some [("P3", []), ("P1", ["P4", "P5"]), ("P5", ["P4"]), ("P2", []),
          ("P4", ["P5"])] := by
  have h := (c8_initial_knowledge "P1" "P2" "P3" "P4" "P5" (by decide)).2
    ["P3", "P1", "P5", "P2", "P4"]
  exact h.trans (by decide)

/-- Characterization of a quest round whose ballot is tallied as
rejected (any rejected ballot, unanimous or not): at four prior
consecutive rejections the round is terminal for evil with the counter
incremented and nothing appended; below four, the counter is
incremented, the leader rotates, and the proposal record with empty
quest outcome is appended. -/
lemma run_quest_round_rejected (g : GameState) (voteOf cardOf : String → String)
    (required : Nat)
    (hq : quest_requirements g.current_quest = some required)
    (hres : vote_result (collect_votes g.players voteOf) = "rejected") :
    run_quest_round g voteOf cardOf =
      if 4 ≤ g.consecutive_rejections then
        some ("evil_wins",
          { g with consecutive_rejections := g.consecutive_rejections + 1 })
      else
        some ("rejected",
          { g with
              consecutive_rejections := g.consecutive_rejections + 1
              leader_index := (g.leader_index + 1) % g.seating_order.length
              rounds := g.rounds ++
                [proposal_record g required (collect_votes g.players voteOf)] }) := by
  unfold run_quest_round
  rw [hq]
  simp only [hres, eq_self_iff_true, if_true, rotate_leader]
  by_cases hcr : 4 ≤ g.consecutive_rejections
  · rw [if_pos hcr, if_pos (show 5 ≤ g.consecutive_rejections + 1 by omega)]
  · rw [if_neg hcr, if_neg (show ¬ 5 ≤ g.consecutive_rejections + 1 by omega)]

/-- C4: on every rejected proposal (any ballot the tally rejects)
below the terminal threshold, the state machine appends the proposal
record with empty quest outcome and the round number one past the
history, increments the rejection counter, rotates the leader, and
keeps the same quest number; but on the fifth consecutive rejection,
contrary to the claim, the game returns the evil win immediately with
no record appended. -/
theorem c4_rejected_proposal (g : GameState) (voteOf cardOf : String → String)
    (required : Nat)
    (hq : quest_requirements g.current_quest = some required)
    (hres : vote_result (collect_votes g.players voteOf) = "rejected") :
    (g.consecutive_rejections < 4 →
      run_quest_round g voteOf cardOf =
        some ("rejected",
          { g with
              consecutive_rejections := g.consecutive_rejections + 1
              leader_index := (g.leader_index + 1) % g.seating_order.length
              rounds := g.rounds ++
                [proposal_record g required (collect_votes g.players voteOf)] }))
    ∧ (proposal_record g required (collect_votes g.players voteOf)).quest_outcome = none
    ∧ (proposal_record g required (collect_votes g.players voteOf)).quest_number
        = g.current_quest
    ∧ (proposal_record g required (collect_votes g.players voteOf)).round_number
        = g.rounds.length + 1
    ∧ (4 ≤ g.consecutive_rejections →
      run_quest_round g voteOf cardOf =
        some ("evil_wins",
          { g with consecutive_rejections := g.consecutive_rejections + 1 })) := by
  refine ⟨?_, rfl, rfl, rfl, ?_⟩
  · intro hlt
    rw [run_quest_round_rejected g voteOf cardOf required hq hres,
      if_neg (by omega)]
  · intro hge
    rw [run_quest_round_rejected g voteOf cardOf required hq hres, if_pos hge]

/-- C4 witness: one round from the fresh test state under a 2-approve
3-reject ballot, a non-unanimous rejection. -/
theorem c4_rejected_proposal_witness :
    run_quest_round testState twoApprove allSuccess =
      some ("rejected", rejectedTwoApproveState) := by
  have h := (c4_rejected_proposal testState twoApprove allSuccess 2 rfl
    (by decide)).1 (by decide)
  exact h.trans (by decide)

/-- C4 counterexample: from a state with four accumulated rejections,
an all-reject ballot is the fifth consecutive rejection; the round
returns the terminal evil win with the counter at five and the round
history left empty, so no record with empty quest outcome was appended
for this rejection. -/
theorem c4_fifth_rejection_no_record :
    run_quest_round crFourState allReject allSuccess =
      some ("evil_wins", { crFourState with consecutive_rejections := 5 })
    ∧ crFourState.rounds = [] := by
  exact ⟨by decide, rfl⟩

/-- C5: on every rejected proposal (any ballot the tally rejects), the
quest round is terminal with the evil win exactly when the rejection
counter was four, that is, when the incremented counter reaches five;
the counter always increments by one, and below the threshold the
round result is a non-terminal rejection that keeps the same quest
number, so the game never terminates by rejections while the counter
is below five. -/
theorem c5_five_rejections_terminal (g : GameState) (voteOf cardOf : String → String)
    (required : Nat)
    (hq : quest_requirements g.current_quest = some required)
    (hres : vote_result (collect_votes g.players voteOf) = "rejected") :
    ((run_quest_round g voteOf cardOf).map Prod.fst = some "evil_wins"
       ↔ 4 ≤ g.consecutive_rejections)
    ∧ (run_quest_round g voteOf cardOf).map (fun rg => rg.2.consecutive_rejections)
        = some (g.consecutive_rejections + 1)
    ∧ (g.consecutive_rejections < 4 →
        (run_quest_round g voteOf cardOf).map Prod.fst = some "rejected"
        ∧ (run_quest_round g voteOf cardOf).map (fun rg => rg.2.current_quest)
            = some g.current_quest) := by
  rw [run_quest_round_rejected g voteOf cardOf required hq hres]
  by_cases hcr : 4 ≤ g.consecutive_rejections
  · rw [if_pos hcr]
    exact ⟨by simpa using hcr, by simp, fun hlt => absurd hcr (by omega)⟩
  · rw [if_neg hcr]
    refine ⟨⟨fun habs => ?_, fun h4 => absurd h4 hcr⟩, by simp, fun hlt => ⟨by simp, by simp⟩⟩
    simp at habs

/-- C5 witness: from three accumulated rejections, a fourth rejection
carried by a non-unanimous 2-approve 3-reject ballot is still a
non-terminal rejection. -/
theorem c5_five_rejections_terminal_witness :
    (run_quest_round crThreeState twoApprove allSuccess).map Prod.fst
      = some "rejected" :=
  ((c5_five_rejections_terminal crThreeState twoApprove allSuccess 2 rfl
    (by decide)).2.2 (by decide)).1

/-- Appending a record numbered one past the history preserves the
round numbering invariant. -/
lemma rounds_well_numbered_append (rs : List RoundRecord) (r : RoundRecord)
    (h : rounds_well_numbered rs) (hr : r.round_number = rs.length + 1) :
    rounds_well_numbered (rs ++ [r]) := by
  intro i r' hi
  by_cases hlt : i < rs.length
  · rw [List.getElem?_append_left hlt] at hi
    exact h i r' hi
  · have hge : rs.length ≤ i := Nat.le_of_not_lt hlt
    rw [List.getElem?_append_right hge] at hi
    have hi0 : i - rs.length = 0 := by
      by_contra hne
      have h1 : 1 ≤ i - rs.length := Nat.one_le_iff_ne_zero.mpr hne
      have hnone : ([r] : List RoundRecord)[i - rs.length]? = none := by
        apply List.getElem?_eq_none
        simpa using h1
      rw [hnone] at hi
      exact Option.noConfusion hi
    rw [hi0] at hi
    have hr' : r = r' := by simpa using hi
    subst hr'
    have hieq : i = rs.length := by omega
    rw [hieq]
    exact hr

/-- Characterization of the history evolution of one quest round: the
history is unchanged (the terminal fifth-rejection path) or exactly
one record numbered one past the previous history is appended. -/
lemma run_quest_round_rounds (g : GameState) (voteOf cardOf : String → String)
    (res : String) (g' : GameState)
    (hrun : run_quest_round g voteOf cardOf = some (res, g')) :
    g'.rounds = g.rounds
    ∨ ∃ rec0 : RoundRecord, g'.rounds = g.rounds ++ [rec0]
        ∧ rec0.round_number = g.rounds.length + 1 := by
  unfold run_quest_round at hrun
  cases hq : quest_requirements g.current_quest with
  | none =>
    rw [hq] at hrun
    simp at hrun
  | some required =>
    rw [hq] at hrun
    dsimp only at hrun
    split at hrun
    all_goals try split at hrun
    all_goals try split at hrun
    all_goals try split at hrun
    all_goals
      injection hrun with h
      injection h with h1 h2
      subst h2
    all_goals
      first
      | exact Or.inl rfl
      | exact Or.inr ⟨_, rfl, rfl⟩

/-- C10: one quest round preserves the invariant that every record in
the round history carries a round number equal to its one-based
position; since records are only ever appended by run_quest_round with
number one past the current history, rounds are numbered consecutively
across the whole game, uniformly over rejected and approved attempts
and regardless of quest number. -/
theorem c10_round_numbers (g : GameState) (voteOf cardOf : String → String)
    (res : String) (g' : GameState)
    (hinv : rounds_well_numbered g.rounds)
    (hrun : run_quest_round g voteOf cardOf = some (res, g')) :
    rounds_well_numbered g'.rounds := by
  rcases run_quest_round_rounds g voteOf cardOf res g' hrun with h | ⟨rec0, h1, h2⟩
  · rw [h]
    exact hinv
  · rw [h1]
    exact rounds_well_numbered_append g.rounds rec0 hinv h2

/-- C10 witness: the invariant after one concrete rejected round from
the fresh test state. -/
theorem c10_round_numbers_witness :
    rounds_well_numbered rejectedOnceState.rounds :=
  c10_round_numbers testState allReject allSuccess "rejected" rejectedOnceState
    (by intro i r h; simp [testState] at h) (by decide)

end Avalon
